import Mathlib

/-!
Health-check engine of vatz (`manager/healthcheck/general_healthcheck.go`).

A shallow embedding of the methods `PluginHealthCheck`, `VATZHealthCheck` and
`PluginStatus` of `healthChecker`.

* Go `error` values are `Option String` (`none` is `nil`).
* Everything outside the process (the plugin's RPC endpoint, the notification
  channels, the wall clock) lives in an abstract world `W` that is threaded
  through the calls in program order.
* `sync.Map` is a finite map (`AList`) from the plugin identity to the stored
  status; the model is sequential.
* Logging is output only and is left out.
* The scheduler of robfig/cron is a list of registered jobs; which schedule
  expressions parse is left to the library.
-/

/-- Go `error`: `none` is `nil`. -/
abbrev error := Option String

/-- Go `time.Time`, as a number of clock ticks. -/
abbrev Time := Nat

namespace pb

/-- The enum `STATE` of vatz-proto (`plugin/v1`). -/
inductive STATE where
  | NONE
  | PENDING
  | IN_PROGRESS
  | SUCCESS
  | FAILURE
  | TIMEOUT
  deriving DecidableEq

/-- The enum `SEVERITY` of vatz-proto (`plugin/v1`). -/
inductive SEVERITY where
  | UNKNOWN
  | WARNING
  | ERROR
  | CRITICAL
  | INFO
  deriving DecidableEq

/-- The message `VerifyInfo` of vatz-proto, the successful answer of `Verify`. -/
structure VerifyInfo where
  VerifyMsg : String
  deriving DecidableEq

/-- The part of `pb.PluginClient` the health check uses: `Verify` answers with a
possibly nil `*VerifyInfo` and a possibly nil error, and may change the world. -/
structure PluginClient (W : Type) where
  Verify : W → (Option VerifyInfo × error) × W

end pb

namespace config

/-- Modelled from the spec: the type `config.Plugin` (package `manager/config`,
not among the sources), "Plugin Descriptor — name, address, port". -/
structure Plugin where
  Name : String
  Address : String
  Port : Int
  deriving DecidableEq

end config

namespace tp

/-- Modelled from the spec: the type `tp.AliveStatus` with its constants
`AliveStatusUp` and `AliveStatusDown` (package `manager/types`, not among the
sources), "Liveness State — enumerated Up, Down. No other values." -/
inductive AliveStatus where
  | AliveStatusUp
  | AliveStatusDown
  deriving DecidableEq

/-- Modelled from the spec: the type `tp.PluginStatus` (package `manager/types`),
"plugin descriptor snapshot, liveness state, last-check timestamp"; the field
names are those of the composite literal at lines 85-89. -/
structure PluginStatus where
  Plugin : config.Plugin
  IsAlive : AliveStatus
  LastCheck : Time
  deriving DecidableEq

/-- Modelled from the spec: the type `tp.ReqMsg` (package `manager/types`); the
field names are those of the composite literal at lines 37-44. `Options` is
Go's `map[string]interface{}`; the only value the health check stores in it is
a string, so values are strings and the map is an association list. -/
structure ReqMsg where
  FuncName : String
  State : pb.STATE
  Msg : String
  Severity : pb.SEVERITY
  ResourceType : String
  Options : List (String × String)
  deriving DecidableEq

/-- Modelled from the spec: the method `ReqMsg.UpdateSeverity` (package
`manager/types`), one of the "controlled field updates (severity/state/message)":
it sets the severity and nothing else. -/
def ReqMsg.UpdateSeverity (r : ReqMsg) (sev : pb.SEVERITY) : ReqMsg :=
  { r with Severity := sev }

/-- Modelled from the spec: the method `ReqMsg.UpdateState` (package
`manager/types`): it sets the state and nothing else. -/
def ReqMsg.UpdateState (r : ReqMsg) (stat : pb.STATE) : ReqMsg :=
  { r with State := stat }

/-- Modelled from the spec: the method `ReqMsg.UpdateMSG` (package
`manager/types`): it sets the message text and nothing else. -/
def ReqMsg.UpdateMSG (r : ReqMsg) (message : String) : ReqMsg :=
  { r with Msg := message }

end tp

namespace dp

/-- The interface `dp.Dispatcher`: `SendNotification` returns a possibly nil
error and may change the world. -/
structure Dispatcher (W : Type) where
  SendNotification : tp.ReqMsg → W → error × W

end dp

namespace healthcheck

/-- The two things the health check takes from outside the file: the helper
`utils.MakeUniqueValue` (package `utils`, not among the sources; any function of
name, address and port) and the clock read by `time.Now()`. -/
structure Externals (W : Type) where
  MakeUniqueValue : String → String → Int → String
  Now : W → Time

/-- The field `pluginStatus sync.Map`: plugin identity to stored status. -/
abbrev StatusMap := AList (fun _ : String => tp.PluginStatus)

/-- The struct `healthChecker`. -/
structure healthChecker where
  healthMSG : tp.ReqMsg
  pluginStatus : StatusMap

/-- One call of `SendNotification` as seen at the dispatcher boundary: the
position of the dispatcher in the sequence, the message it was given and the
error it returned. -/
structure Call where
  index : Nat
  msg : tp.ReqMsg
  result : error
  deriving DecidableEq

/-- The condition `err != nil || verify == nil` of lines 47 and 54. -/
def verifyFailed (verify : Option pb.VerifyInfo) (err : error) : Bool :=
  err.isSome || verify.isNone

/-- The template built at lines 35-44. -/
def defaultMSG (plugin : config.Plugin) (pUnique : String) : tp.ReqMsg :=
  { FuncName := "isPluginUp"
    State := pb.STATE.FAILURE
    Msg := "Plugin is DOWN!!"
    Severity := pb.SEVERITY.CRITICAL
    ResourceType := plugin.Name
    Options := [("pUnique", pUnique)] }

/-- The local variables `isAlive`, `sendMSG` and `deliverMSG` after the
branching of lines 46-67. -/
structure Decision where
  isAlive : tp.AliveStatus
  sendMSG : Bool
  deliverMSG : tp.ReqMsg
  deriving DecidableEq

/-- Lines 30-67: from the stored status of the identity (if any) and the answer
of `Verify`, the liveness, whether an alert is owed, and the message. -/
def alertDecision (plugin : config.Plugin) (pUnique : String)
    (stored : Option tp.PluginStatus) (verify : Option pb.VerifyInfo) (err : error) :
    Decision :=
  let isAlive := tp.AliveStatus.AliveStatusUp
  let sendMSG := false
  let deliverMSG := defaultMSG plugin pUnique
  match stored with
  | none =>
    if verifyFailed verify err then
      ⟨tp.AliveStatus.AliveStatusDown, true, deliverMSG⟩
    else
      ⟨isAlive, sendMSG, deliverMSG⟩
  | some pStruct =>
    if verifyFailed verify err then
      if pStruct.IsAlive = tp.AliveStatus.AliveStatusUp then
        ⟨tp.AliveStatus.AliveStatusDown, true, deliverMSG⟩
      else
        ⟨tp.AliveStatus.AliveStatusDown, sendMSG, deliverMSG⟩
    else
      if pStruct.IsAlive = tp.AliveStatus.AliveStatusDown then
        ⟨isAlive, true,
          ((deliverMSG.UpdateSeverity pb.SEVERITY.INFO).UpdateState pb.STATE.SUCCESS).UpdateMSG
            "Plugin is Alive."⟩
      else
        ⟨isAlive, sendMSG, deliverMSG⟩

/-- The loop of lines 71-77: every dispatcher of the sequence is called with
`deliverMSG`, in order; `errorCount` counts the non-nil results. The arguments
`i` and `calls` record the calls made so far. -/
def sendLoop {W : Type} (deliverMSG : tp.ReqMsg) :
    List (dp.Dispatcher W) → Nat → W → Nat → List Call → W × Nat × List Call
  | [], _, w, errorCount, calls => (w, errorCount, calls)
  | dispatcher :: rest, i, w, errorCount, calls =>
    let r := dispatcher.SendNotification deliverMSG w
    sendLoop deliverMSG rest (i + 1) r.2
      (if r.1.isSome then errorCount + 1 else errorCount)
      (calls ++ [⟨i, deliverMSG, r.1⟩])

/-- What one call of `PluginHealthCheck` returns and leaves behind: the two
return values, the checker (with its status map), the world, and the calls of
`SendNotification` it made. -/
structure CheckResult (W : Type) where
  isAlive : tp.AliveStatus
  err : error
  checker : healthChecker
  world : W
  calls : List Call

/-- The method `healthChecker.PluginHealthCheck` (lines 29-92). -/
def healthChecker.PluginHealthCheck {W : Type} (ext : Externals W) (h : healthChecker) (w : W)
    (gClient : pb.PluginClient W) (plugin : config.Plugin)
    (dispatchers : List (dp.Dispatcher W)) : CheckResult W :=
  let pUnique := ext.MakeUniqueValue plugin.Name plugin.Address plugin.Port
  let v := gClient.Verify w
  let d := alertDecision plugin pUnique (h.pluginStatus.lookup pUnique) v.1.1 v.1.2
  let store := fun (w1 : W) (calls : List Call) =>
    (⟨d.isAlive, none,
      { h with pluginStatus :=
          h.pluginStatus.insert pUnique ⟨plugin, d.isAlive, ext.Now w1⟩ },
      w1, calls⟩ : CheckResult W)
  if d.sendMSG then
    let s := sendLoop d.deliverMSG dispatchers 0 v.2 0 []
    if dispatchers.length = s.2.1 then
      ⟨d.isAlive, some "Failed to send all configured notifications. ", h, s.1, s.2.2⟩
    else
      store s.1 s.2.2
  else
    store v.2 []

/-- The method `Range` of `sync.Map`: `f` is called on each key and value in
turn and the iteration stops when `f` returns false. Go leaves the order
unspecified; here it is the order of the entries. -/
def Range {σ : Type} (f : String → tp.PluginStatus → σ → σ × Bool) :
    List (Sigma fun _ : String => tp.PluginStatus) → σ → σ
  | [], acc => acc
  | e :: rest, acc =>
    let r := f e.1 e.2 acc
    if r.2 then Range f rest r.1 else r.1

/-- The method `healthChecker.PluginStatus` (lines 114-124): the slice it
returns, and the checker it leaves behind. -/
def healthChecker.PluginStatus (h : healthChecker) : List tp.PluginStatus × healthChecker :=
  let status : List tp.PluginStatus := []
  (Range (fun _ curStatus status => (status ++ [curStatus], true)) h.pluginStatus.entries status,
    h)

/-- One job of the scheduler of robfig/cron: the schedule expression it was
registered under and the function to run at each firing, which acts on the world
and whose calls of `SendNotification` are recorded. -/
structure CronEntry (W : Type) where
  spec : String
  cmd : W → W × List Call

/-- The scheduler `cron.Cron` of robfig/cron, as far as the health check uses
it: the registered jobs and whether it has been started. -/
structure Cron (W : Type) where
  entries : List (CronEntry W)
  running : Bool

/-- The constructor `cron.New`. -/
def Cron.New {W : Type} : Cron W := ⟨[], false⟩

/-- The method `Cron.AddFunc`: the expression is parsed; a malformed one gives
an error and registers nothing, a well-formed one registers the job. Which
expressions parse is the library's matter, `validSpec`. -/
def Cron.AddFunc {W : Type} (validSpec : String → Bool) (c : Cron W) (spec : String)
    (cmd : W → W × List Call) : Cron W × error :=
  if validSpec spec then
    ({ c with entries := c.entries ++ [⟨spec, cmd⟩] }, none)
  else
    (c, some "failed to parse the schedule expression")

/-- The method `Cron.Start`. -/
def Cron.Start {W : Type} (c : Cron W) : Cron W :=
  { c with running := true }

/-- The body of the scheduled function (lines 99-104): the message is sent to
every dispatcher in order; an error is logged only. The arguments `i` and
`calls` record the calls made so far. -/
def heartbeatLoop {W : Type} (healthMSG : tp.ReqMsg) :
    List (dp.Dispatcher W) → Nat → W → List Call → W × List Call
  | [], _, w, calls => (w, calls)
  | dispatcher :: rest, i, w, calls =>
    let r := dispatcher.SendNotification healthMSG w
    heartbeatLoop healthMSG rest (i + 1) r.2 (calls ++ [⟨i, healthMSG, r.1⟩])

/-- The loop of lines 97-109: every schedule expression is handed to `AddFunc`
with the heartbeat function; an error of `AddFunc` is logged only. -/
def registerLoop {W : Type} (validSpec : String → Bool) (h : healthChecker)
    (dispatchers : List (dp.Dispatcher W)) : List String → Cron W → Cron W
  | [], c => c
  | spec :: rest, c =>
    let r := c.AddFunc validSpec spec (fun w => heartbeatLoop h.healthMSG dispatchers 0 w [])
    registerLoop validSpec h dispatchers rest r.1

/-- The method `healthChecker.VATZHealthCheck` (lines 95-112): the error it
returns and the scheduler it has started. -/
def healthChecker.VATZHealthCheck {W : Type} (validSpec : String → Bool) (h : healthChecker)
    (healthCheckerSchedule : List String) (dispatchers : List (dp.Dispatcher W)) :
    error × Cron W :=
  let c : Cron W := Cron.New
  let c := registerLoop validSpec h dispatchers healthCheckerSchedule c
  (none, c.Start)

end healthcheck

namespace healthcheck

/-! ## Vocabulary of the statements -/

/-- The errors the dispatchers return when each one is called once with `msg`,
first to last, each in the world left by the one before it. -/
def sendResults {W : Type} (msg : tp.ReqMsg) : List (dp.Dispatcher W) → W → List error
  | [], _ => []
  | d :: rest, w => (d.SendNotification msg w).1 :: sendResults msg rest (d.SendNotification msg w).2

/-- The world after each dispatcher has been called once with `msg`, first to
last. -/
def sendWorld {W : Type} (msg : tp.ReqMsg) : List (dp.Dispatcher W) → W → W
  | [], w => w
  | d :: rest, w => sendWorld msg rest (d.SendNotification msg w).2

/-- The calls that carry `msg` to the positions `i, i+1, ...` with the given
results. -/
def recordCalls (msg : tp.ReqMsg) : Nat → List error → List Call
  | _, [] => []
  | i, e :: es => ⟨i, msg, e⟩ :: recordCalls msg (i + 1) es

/-- The plugin identity, `pUnique` of line 32. -/
def Externals.identity {W : Type} (ext : Externals W) (plugin : config.Plugin) : String :=
  ext.MakeUniqueValue plugin.Name plugin.Address plugin.Port

/-- The observation of one check: Down when `Verify`, called in world `w`,
returns an error or a nil response, Up otherwise. -/
def observation {W : Type} (gClient : pb.PluginClient W) (w : W) : tp.AliveStatus :=
  if (gClient.Verify w).1.2 ≠ none ∨ (gClient.Verify w).1.1 = none then
    tp.AliveStatus.AliveStatusDown
  else
    tp.AliveStatus.AliveStatusUp

/-- The spec's rule for owing an alert: with no stored status, the observation
is Down; with a stored status, its liveness differs from the observation. -/
def alertOwedSpec (stored : Option tp.PluginStatus) (observed : tp.AliveStatus) : Bool :=
  match stored with
  | none => decide (observed = tp.AliveStatus.AliveStatusDown)
  | some s => decide (s.IsAlive ≠ observed)

/-- The code's `sendMSG` for a check of `plugin` on checker `h` in world `w`. -/
def alertOwed {W : Type} (ext : Externals W) (h : healthChecker) (w : W)
    (gClient : pb.PluginClient W) (plugin : config.Plugin) : Bool :=
  (alertDecision plugin (ext.identity plugin) (h.pluginStatus.lookup (ext.identity plugin))
    (gClient.Verify w).1.1 (gClient.Verify w).1.2).sendMSG

/-- The code's `deliverMSG` for a check of `plugin` on checker `h` in world `w`. -/
def alertMSG {W : Type} (ext : Externals W) (h : healthChecker) (w : W)
    (gClient : pb.PluginClient W) (plugin : config.Plugin) : tp.ReqMsg :=
  (alertDecision plugin (ext.identity plugin) (h.pluginStatus.lookup (ext.identity plugin))
    (gClient.Verify w).1.1 (gClient.Verify w).1.2).deliverMSG

/-- One call of `PluginHealthCheck` to be made: its client, plugin and
dispatchers. -/
structure CheckRequest (W : Type) where
  gClient : pb.PluginClient W
  plugin : config.Plugin
  dispatchers : List (dp.Dispatcher W)

/-- Consecutive checks: each one runs on the checker and in the world left by
the one before. The result is the last checker together with, in the order of
the checks, each checked plugin and what its check returned. -/
def runChecks {W : Type} (ext : Externals W) :
    healthChecker → W → List (CheckRequest W) → healthChecker × List (config.Plugin × CheckResult W)
  | h, _, [] => (h, [])
  | h, w, q :: rest =>
    let r := h.PluginHealthCheck ext w q.gClient q.plugin q.dispatchers
    let t := runChecks ext r.checker r.world rest
    (t.1, (q.plugin, r) :: t.2)

/-- The status of the most recent check of identity `k`, among the checks of a
history (earliest first), that returned a nil error: the checked plugin, the
returned liveness and the clock reading at the end of that check. -/
def lastWritten {W : Type} (ext : Externals W) (k : String) :
    List (config.Plugin × CheckResult W) → Option tp.PluginStatus
  | [] => none
  | pr :: rest =>
    match lastWritten ext k rest with
    | some s => some s
    | none =>
      if ext.identity pr.1 = k ∧ pr.2.err = none then
        some ⟨pr.1, pr.2.isAlive, ext.Now pr.2.world⟩
      else none

/-- The distinct identities checked in a history. -/
def checkedIdentities {W : Type} (ext : Externals W)
    (t : List (config.Plugin × CheckResult W)) : List String :=
  (t.map (fun pr => ext.identity pr.1)).dedup

/-- The distinct identities that have, in a history, a check that returned a
nil error. -/
def writtenIdentities {W : Type} (ext : Externals W)
    (t : List (config.Plugin × CheckResult W)) : List String :=
  ((t.filter (fun pr => pr.2.err.isNone)).map (fun pr => ext.identity pr.1)).dedup

/-! ## Concrete checkers, clients and dispatchers -/

/-- A world that counts the external calls made, with the clock reading it; the
identity is name, address and port written one after the other. -/
def counterExt : Externals Nat :=
  ⟨fun name address port => name ++ address ++ toString port, fun w => w⟩

/-- A dispatcher that always succeeds. -/
def okDispatcher : dp.Dispatcher Nat := ⟨fun _ w => (none, w + 1)⟩

/-- A dispatcher that always fails. -/
def failDispatcher : dp.Dispatcher Nat := ⟨fun _ w => (some "channel unreachable", w + 1)⟩

/-- A plugin whose `Verify` fails. -/
def downClient : pb.PluginClient Nat := ⟨fun w => ((none, some "connection refused"), w + 1)⟩

/-- A plugin whose `Verify` succeeds. -/
def upClient : pb.PluginClient Nat := ⟨fun w => ((some ⟨"ok"⟩, none), w + 1)⟩

/-- A plugin descriptor; its identity under `counterExt` is `"nodelocalhost9091"`. -/
def samplePlugin : config.Plugin := ⟨"node", "localhost", 9091⟩

/-- The heartbeat message of the sample checkers. -/
def sampleHealthMSG : tp.ReqMsg :=
  ⟨"vatz_healthcheck", pb.STATE.SUCCESS, "VATZ is Alive!!", pb.SEVERITY.INFO, "vatz", []⟩

/-- A checker that has not checked anything yet. -/
def freshChecker : healthChecker := ⟨sampleHealthMSG, ∅⟩

/-- A checker whose store records `samplePlugin` with the given liveness. -/
def checkerWith (s : tp.AliveStatus) : healthChecker :=
  ⟨sampleHealthMSG, (∅ : StatusMap).insert "nodelocalhost9091" ⟨samplePlugin, s, 0⟩⟩

/-- A second plugin; its identity under `counterExt` is `"relaylocalhost9092"`. -/
def otherPlugin : config.Plugin := ⟨"relay", "localhost", 9092⟩

/-- A checker whose store records `otherPlugin` only, as Up. -/
def checkerWithOther : healthChecker :=
  ⟨sampleHealthMSG,
    (∅ : StatusMap).insert "relaylocalhost9092" ⟨otherPlugin, tp.AliveStatus.AliveStatusUp, 0⟩⟩

/-- Three checks in a row: the sample plugin is down and the only dispatcher
fails, the other plugin is up, the sample plugin is down and a dispatcher
works. -/
def sampleRequests : List (CheckRequest Nat) :=
  [⟨downClient, samplePlugin, [failDispatcher]⟩,
   ⟨upClient, otherPlugin, [failDispatcher]⟩,
   ⟨downClient, samplePlugin, [failDispatcher, okDispatcher]⟩]

/-! ## The dispatch loop -/

theorem sendResults_length {W : Type} (msg : tp.ReqMsg) (ds : List (dp.Dispatcher W)) (w : W) :
    (sendResults msg ds w).length = ds.length := by
  induction ds generalizing w with
  | nil => rfl
  | cons d rest ih => simp [sendResults, ih]

theorem recordCalls_length (msg : tp.ReqMsg) (i : Nat) (es : List error) :
    (recordCalls msg i es).length = es.length := by
  induction es generalizing i with
  | nil => rfl
  | cons e es ih => simp [recordCalls, ih]

theorem recordCalls_result (msg : tp.ReqMsg) (i : Nat) (es : List error) :
    (recordCalls msg i es).map Call.result = es := by
  induction es generalizing i with
  | nil => rfl
  | cons e es ih => simp [recordCalls, ih]

theorem recordCalls_msg (msg : tp.ReqMsg) (i : Nat) (es : List error) :
    ∀ c ∈ recordCalls msg i es, c.msg = msg := by
  induction es generalizing i with
  | nil => simp [recordCalls]
  | cons e es ih =>
    intro c hc
    simp only [recordCalls, List.mem_cons] at hc
    rcases hc with rfl | hc
    · rfl
    · exact ih (i + 1) c hc

theorem recordCalls_index (msg : tp.ReqMsg) (i : Nat) (es : List error) :
    (recordCalls msg i es).map (fun c => (c.index, c.msg)) =
      (List.range' i es.length).map (fun k => (k, msg)) := by
  induction es generalizing i with
  | nil => rfl
  | cons e es ih => simp [recordCalls, ih, List.range'_succ]

theorem recordCalls_all_failed (msg : tp.ReqMsg) (i : Nat) (es : List error) :
    (∀ e ∈ es, e ≠ none) ↔ ∀ c ∈ recordCalls msg i es, c.result ≠ none := by
  induction es generalizing i with
  | nil => simp [recordCalls]
  | cons e es ih => simp [recordCalls, ← ih (i + 1)]

theorem sendLoop_eq {W : Type} (msg : tp.ReqMsg) (ds : List (dp.Dispatcher W)) (i : Nat) (w : W)
    (errorCount : Nat) (calls : List Call) :
    sendLoop msg ds i w errorCount calls =
      (sendWorld msg ds w,
        errorCount + (sendResults msg ds w).countP (fun e => e.isSome),
        calls ++ recordCalls msg i (sendResults msg ds w)) := by
  induction ds generalizing i w errorCount calls with
  | nil => simp [sendLoop, sendWorld, sendResults, recordCalls]
  | cons d rest ih =>
    simp only [sendLoop, sendWorld, sendResults, recordCalls, ih, List.countP_cons,
      List.append_assoc, List.singleton_append]
    cases hres : (d.SendNotification msg w).1 with
    | none => simp
    | some s => simp; omega

theorem countP_isSome_eq_length (es : List error) :
    es.length = es.countP (fun e => e.isSome) ↔ ∀ e ∈ es, e ≠ none := by
  rw [eq_comm, List.countP_eq_length]
  constructor
  · intro hall e he hnone
    have := hall e he
    simp [hnone] at this
  · intro hall e he
    cases e with
    | none => exact absurd rfl (hall none he)
    | some s => rfl

/-! ## One check, field by field -/

theorem verifyFailed_iff {W : Type} (gClient : pb.PluginClient W) (w : W) :
    verifyFailed (gClient.Verify w).1.1 (gClient.Verify w).1.2 = true ↔
      observation gClient w = tp.AliveStatus.AliveStatusDown := by
  unfold verifyFailed observation
  cases (gClient.Verify w).1.1 <;> cases (gClient.Verify w).1.2 <;> simp

theorem alertDecision_isAlive {W : Type} (gClient : pb.PluginClient W) (w : W)
    (plugin : config.Plugin) (pUnique : String) (stored : Option tp.PluginStatus) :
    (alertDecision plugin pUnique stored (gClient.Verify w).1.1 (gClient.Verify w).1.2).isAlive =
      observation gClient w := by
  unfold alertDecision observation verifyFailed
  cases stored <;> cases (gClient.Verify w).1.1 <;> cases (gClient.Verify w).1.2 <;>
    simp <;> split <;> rfl

theorem alertOwed_eq_spec {W : Type} (ext : Externals W) (h : healthChecker) (w : W)
    (gClient : pb.PluginClient W) (plugin : config.Plugin) :
    alertOwed ext h w gClient plugin =
      alertOwedSpec (h.pluginStatus.lookup (ext.identity plugin)) (observation gClient w) := by
  unfold alertOwed alertDecision alertOwedSpec observation verifyFailed
  cases h.pluginStatus.lookup (ext.identity plugin) with
  | none => cases (gClient.Verify w).1.1 <;> cases (gClient.Verify w).1.2 <;> simp
  | some s =>
    cases hs : s.IsAlive <;> cases (gClient.Verify w).1.1 <;> cases (gClient.Verify w).1.2 <;>
      simp [hs]

theorem check_isAlive {W : Type} (ext : Externals W) (h : healthChecker) (w : W)
    (gClient : pb.PluginClient W) (plugin : config.Plugin) (ds : List (dp.Dispatcher W)) :
    (h.PluginHealthCheck ext w gClient plugin ds).isAlive = observation gClient w := by
  rw [← alertDecision_isAlive gClient w plugin (ext.identity plugin)
    (h.pluginStatus.lookup (ext.identity plugin))]
  unfold healthChecker.PluginHealthCheck Externals.identity
  simp only
  split
  · split <;> rfl
  · rfl

theorem check_calls {W : Type} (ext : Externals W) (h : healthChecker) (w : W)
    (gClient : pb.PluginClient W) (plugin : config.Plugin) (ds : List (dp.Dispatcher W)) :
    (h.PluginHealthCheck ext w gClient plugin ds).calls =
      if alertOwed ext h w gClient plugin then
        recordCalls (alertMSG ext h w gClient plugin) 0
          (sendResults (alertMSG ext h w gClient plugin) ds (gClient.Verify w).2)
      else [] := by
  unfold healthChecker.PluginHealthCheck alertOwed alertMSG Externals.identity
  simp only [sendLoop_eq, List.nil_append]
  split
  · split <;> rfl
  · rfl

theorem check_world {W : Type} (ext : Externals W) (h : healthChecker) (w : W)
    (gClient : pb.PluginClient W) (plugin : config.Plugin) (ds : List (dp.Dispatcher W)) :
    (h.PluginHealthCheck ext w gClient plugin ds).world =
      if alertOwed ext h w gClient plugin then
        sendWorld (alertMSG ext h w gClient plugin) ds (gClient.Verify w).2
      else (gClient.Verify w).2 := by
  unfold healthChecker.PluginHealthCheck alertOwed alertMSG Externals.identity
  simp only [sendLoop_eq, List.nil_append]
  split
  · split <;> rfl
  · rfl

theorem check_err {W : Type} (ext : Externals W) (h : healthChecker) (w : W)
    (gClient : pb.PluginClient W) (plugin : config.Plugin) (ds : List (dp.Dispatcher W)) :
    (h.PluginHealthCheck ext w gClient plugin ds).err =
      if alertOwed ext h w gClient plugin = true ∧
          ∀ c ∈ (h.PluginHealthCheck ext w gClient plugin ds).calls, c.result ≠ none then
        some "Failed to send all configured notifications. "
      else none := by
  have hlen : ds.length = 0 + (sendResults (alertMSG ext h w gClient plugin) ds
      (gClient.Verify w).2).countP (fun e => e.isSome) ↔
      ∀ c ∈ recordCalls (alertMSG ext h w gClient plugin) 0
        (sendResults (alertMSG ext h w gClient plugin) ds (gClient.Verify w).2),
        c.result ≠ none := by
    rw [Nat.zero_add, ← sendResults_length (alertMSG ext h w gClient plugin) ds (gClient.Verify w).2,
      countP_isSome_eq_length, recordCalls_all_failed]
  rw [check_calls]
  unfold healthChecker.PluginHealthCheck
  unfold alertOwed alertMSG Externals.identity at *
  simp only [sendLoop_eq, List.nil_append]
  split
  · rename_i hsend
    simp only [hsend, if_true, true_and]
    split
    · rename_i hc
      rw [if_pos (hlen.mp hc)]
    · rename_i hc
      rw [if_neg (fun hall => hc (hlen.mpr hall))]
  · rename_i hsend
    simp [hsend]

theorem check_checker {W : Type} (ext : Externals W) (h : healthChecker) (w : W)
    (gClient : pb.PluginClient W) (plugin : config.Plugin) (ds : List (dp.Dispatcher W)) :
    (h.PluginHealthCheck ext w gClient plugin ds).checker =
      if (h.PluginHealthCheck ext w gClient plugin ds).err = none then
        { h with
          pluginStatus :=
            h.pluginStatus.insert (ext.identity plugin)
              ⟨plugin, (h.PluginHealthCheck ext w gClient plugin ds).isAlive,
                ext.Now (h.PluginHealthCheck ext w gClient plugin ds).world⟩ }
      else h := by
  unfold healthChecker.PluginHealthCheck Externals.identity
  simp only
  split
  · split <;> simp
  · simp

theorem check_calls_length {W : Type} (ext : Externals W) (h : healthChecker) (w : W)
    (gClient : pb.PluginClient W) (plugin : config.Plugin) (ds : List (dp.Dispatcher W)) :
    (h.PluginHealthCheck ext w gClient plugin ds).calls.length =
      if alertOwed ext h w gClient plugin then ds.length else 0 := by
  rw [check_calls]
  split
  · rw [recordCalls_length, sendResults_length]
  · rfl

theorem check_calls_msg {W : Type} (ext : Externals W) (h : healthChecker) (w : W)
    (gClient : pb.PluginClient W) (plugin : config.Plugin) (ds : List (dp.Dispatcher W)) :
    ∀ c ∈ (h.PluginHealthCheck ext w gClient plugin ds).calls,
      c.msg = alertMSG ext h w gClient plugin := by
  rw [check_calls]
  split
  · exact recordCalls_msg _ _ _
  · intro c hc
    cases hc

theorem alertMSG_down {W : Type} (ext : Externals W) (h : healthChecker) (w : W)
    (gClient : pb.PluginClient W) (plugin : config.Plugin)
    (hdown : observation gClient w = tp.AliveStatus.AliveStatusDown) :
    alertMSG ext h w gClient plugin = defaultMSG plugin (ext.identity plugin) := by
  have hv := (verifyFailed_iff gClient w).mpr hdown
  unfold alertMSG alertDecision
  cases h.pluginStatus.lookup (ext.identity plugin) with
  | none => simp [hv]
  | some s => cases hs : s.IsAlive <;> simp [hv, hs]

theorem alertMSG_recovery {W : Type} (ext : Externals W) (h : healthChecker) (w : W)
    (gClient : pb.PluginClient W) (plugin : config.Plugin) (s : tp.PluginStatus)
    (hstored : h.pluginStatus.lookup (ext.identity plugin) = some s)
    (hs : s.IsAlive = tp.AliveStatus.AliveStatusDown)
    (hup : observation gClient w = tp.AliveStatus.AliveStatusUp) :
    alertMSG ext h w gClient plugin =
      { defaultMSG plugin (ext.identity plugin) with
        Severity := pb.SEVERITY.INFO
        State := pb.STATE.SUCCESS
        Msg := "Plugin is Alive." } := by
  have hv : verifyFailed (gClient.Verify w).1.1 (gClient.Verify w).1.2 = false := by
    cases hvf : verifyFailed (gClient.Verify w).1.1 (gClient.Verify w).1.2 with
    | false => rfl
    | true =>
      rw [(verifyFailed_iff gClient w).mp hvf] at hup
      cases hup
  unfold alertMSG alertDecision
  simp [hstored, hv, hs, tp.ReqMsg.UpdateSeverity, tp.ReqMsg.UpdateState, tp.ReqMsg.UpdateMSG]

theorem check_calls_in_order {W : Type} (ext : Externals W) (h : healthChecker) (w : W)
    (gClient : pb.PluginClient W) (plugin : config.Plugin) (ds : List (dp.Dispatcher W))
    (howed : alertOwed ext h w gClient plugin = true) :
    (h.PluginHealthCheck ext w gClient plugin ds).calls.map (fun c => (c.index, c.msg)) =
      (List.range ds.length).map (fun k => (k, alertMSG ext h w gClient plugin)) := by
  rw [check_calls, howed, if_pos rfl, recordCalls_index, sendResults_length,
    List.range_eq_range']

theorem check_err_results {W : Type} (ext : Externals W) (h : healthChecker) (w : W)
    (gClient : pb.PluginClient W) (plugin : config.Plugin) (ds : List (dp.Dispatcher W)) :
    (h.PluginHealthCheck ext w gClient plugin ds).err =
      if alertOwed ext h w gClient plugin = true ∧
          ∀ e ∈ sendResults (alertMSG ext h w gClient plugin) ds (gClient.Verify w).2,
            e ≠ none then
        some "Failed to send all configured notifications. "
      else none := by
  rw [check_err]
  by_cases howed : alertOwed ext h w gClient plugin = true
  · have hiff := recordCalls_all_failed (alertMSG ext h w gClient plugin) 0
      (sendResults (alertMSG ext h w gClient plugin) ds (gClient.Verify w).2)
    rw [check_calls, howed, if_pos rfl]
    by_cases hall : ∀ e ∈ sendResults (alertMSG ext h w gClient plugin) ds (gClient.Verify w).2,
        e ≠ none
    · rw [if_pos ⟨rfl, hiff.mp hall⟩, if_pos ⟨rfl, hall⟩]
    · rw [if_neg (fun hc => hall (hiff.mpr hc.2)), if_neg (fun hc => hall hc.2)]
  · rw [if_neg (fun hc => howed hc.1), if_neg (fun hc => howed hc.1)]

/-! ## The claims -/

/-- C1: the liveness returned by `PluginHealthCheck` is Down exactly when
`Verify` returned an error or a nil response, and Up otherwise; it is the same
for every store and every dispatcher sequence, whether or not an error is
returned with it. -/
theorem C1_liveness_follows_verify {W : Type} (ext : Externals W) (h : healthChecker) (w : W)
    (gClient : pb.PluginClient W) (plugin : config.Plugin) (ds : List (dp.Dispatcher W)) :
    ((h.PluginHealthCheck ext w gClient plugin ds).isAlive = tp.AliveStatus.AliveStatusDown ↔
        ((gClient.Verify w).1.2 ≠ none ∨ (gClient.Verify w).1.1 = none)) ∧
      ((h.PluginHealthCheck ext w gClient plugin ds).isAlive = tp.AliveStatus.AliveStatusUp ↔
        ¬ ((gClient.Verify w).1.2 ≠ none ∨ (gClient.Verify w).1.1 = none)) ∧
      ∀ (h2 : healthChecker) (ds2 : List (dp.Dispatcher W)),
        (h2.PluginHealthCheck ext w gClient plugin ds2).isAlive =
          (h.PluginHealthCheck ext w gClient plugin ds).isAlive := by
  refine ⟨?_, ?_, ?_⟩
  · rw [check_isAlive]
    unfold observation
    split <;> simp_all
  · rw [check_isAlive]
    unfold observation
    split <;> simp_all
  · intro h2 ds2
    rw [check_isAlive, check_isAlive]

/-- C2: with the observation read off the answer of `Verify` (Down on an error
or a nil response, Up otherwise), the check owes an alert exactly when no status
is stored for the identity and the observation is Down, or a status is stored
and its liveness differs from the observation; it then calls the dispatchers at
positions 0 to N-1, and in every other case it makes no dispatcher call at
all. The liveness it returns is that observation. -/
theorem C2_alert_owed_iff_transition {W : Type} (ext : Externals W) (h : healthChecker) (w : W)
    (gClient : pb.PluginClient W) (plugin : config.Plugin) (ds : List (dp.Dispatcher W)) :
    alertOwed ext h w gClient plugin =
        alertOwedSpec (h.pluginStatus.lookup (ext.identity plugin)) (observation gClient w) ∧
      (h.PluginHealthCheck ext w gClient plugin ds).calls.map Call.index =
        (if alertOwedSpec (h.pluginStatus.lookup (ext.identity plugin))
            (observation gClient w) then List.range ds.length else []) ∧
      (h.PluginHealthCheck ext w gClient plugin ds).calls.length =
        (if alertOwedSpec (h.pluginStatus.lookup (ext.identity plugin))
            (observation gClient w) then ds.length else 0) ∧
      (h.PluginHealthCheck ext w gClient plugin ds).isAlive = observation gClient w := by
  have hspec := alertOwed_eq_spec ext h w gClient plugin
  refine ⟨hspec, ?_, ?_, check_isAlive ext h w gClient plugin ds⟩
  · rw [← hspec]
    cases howed : alertOwed ext h w gClient plugin with
    | false =>
      rw [check_calls, howed]
      rfl
    | true =>
      have hc := check_calls_in_order ext h w gClient plugin ds howed
      have := congrArg (List.map Prod.fst) hc
      simpa [List.map_map, Function.comp_def] using this
  · rw [check_calls_length, hspec]

/-- C3: when an alert is owed, `SendNotification` is called exactly once on
every dispatcher of the sequence, first to last, each time with the same
message, and the dispatcher at each position is called in the world left by the
ones before it whatever they returned. -/
theorem C3_every_dispatcher_called_once {W : Type} (ext : Externals W) (h : healthChecker) (w : W)
    (gClient : pb.PluginClient W) (plugin : config.Plugin) (ds : List (dp.Dispatcher W))
    (howed : alertOwed ext h w gClient plugin = true) :
    (h.PluginHealthCheck ext w gClient plugin ds).calls.map (fun c => (c.index, c.msg)) =
        (List.range ds.length).map (fun k => (k, alertMSG ext h w gClient plugin)) ∧
      (h.PluginHealthCheck ext w gClient plugin ds).calls.map Call.result =
        sendResults (alertMSG ext h w gClient plugin) ds (gClient.Verify w).2 ∧
      (h.PluginHealthCheck ext w gClient plugin ds).world =
        sendWorld (alertMSG ext h w gClient plugin) ds (gClient.Verify w).2 := by
  rw [check_calls, check_world, howed]
  simp only [if_true]
  refine ⟨?_, recordCalls_result _ _ _, trivial⟩
  rw [recordCalls_index, sendResults_length, List.range_eq_range']

/-- C3, at a fresh checker whose plugin is down, with a failing dispatcher
placed before a working one. -/
theorem C3_every_dispatcher_called_once_witness :
    alertOwed counterExt freshChecker 0 downClient samplePlugin = true ∧
      ((freshChecker.PluginHealthCheck counterExt 0 downClient samplePlugin
          [failDispatcher, okDispatcher]).calls.map (fun c => (c.index, c.msg)) =
        (List.range [failDispatcher, okDispatcher].length).map
          (fun k => (k, alertMSG counterExt freshChecker 0 downClient samplePlugin)) ∧
      (freshChecker.PluginHealthCheck counterExt 0 downClient samplePlugin
          [failDispatcher, okDispatcher]).calls.map Call.result =
        sendResults (alertMSG counterExt freshChecker 0 downClient samplePlugin)
          [failDispatcher, okDispatcher] (downClient.Verify 0).2 ∧
      (freshChecker.PluginHealthCheck counterExt 0 downClient samplePlugin
          [failDispatcher, okDispatcher]).world =
        sendWorld (alertMSG counterExt freshChecker 0 downClient samplePlugin)
          [failDispatcher, okDispatcher] (downClient.Verify 0).2) :=
  ⟨by decide,
    C3_every_dispatcher_called_once counterExt freshChecker 0 downClient samplePlugin
      [failDispatcher, okDispatcher] (by decide)⟩

/-- C4: with at least one dispatcher, `PluginHealthCheck` returns a non-nil
error exactly when an alert was owed (by the rule on the stored status and the
answer of `Verify`) and `SendNotification` failed on every dispatcher of the
sequence, of which there is at least one; so the error is nil when no alert is
owed, and nil when `Verify` failed but some dispatcher succeeded. -/
theorem C4_error_iff_all_dispatchers_failed {W : Type} (ext : Externals W) (h : healthChecker)
    (w : W) (gClient : pb.PluginClient W) (plugin : config.Plugin)
    (ds : List (dp.Dispatcher W)) (hne : ds ≠ []) :
    ((h.PluginHealthCheck ext w gClient plugin ds).err ≠ none ↔
        (alertOwedSpec (h.pluginStatus.lookup (ext.identity plugin))
            (observation gClient w) = true ∧
          ∀ e ∈ sendResults (alertMSG ext h w gClient plugin) ds (gClient.Verify w).2,
            e ≠ none)) ∧
      sendResults (alertMSG ext h w gClient plugin) ds (gClient.Verify w).2 ≠ [] ∧
      (alertOwedSpec (h.pluginStatus.lookup (ext.identity plugin))
          (observation gClient w) = false →
        (h.PluginHealthCheck ext w gClient plugin ds).err = none) ∧
      (observation gClient w = tp.AliveStatus.AliveStatusDown →
        (∃ e ∈ sendResults (defaultMSG plugin (ext.identity plugin)) ds (gClient.Verify w).2,
          e = none) →
        (h.PluginHealthCheck ext w gClient plugin ds).err = none) := by
  have herr := check_err_results ext h w gClient plugin ds
  have hspec := alertOwed_eq_spec ext h w gClient plugin
  rw [hspec] at herr
  refine ⟨?_, ?_, ?_, ?_⟩
  · constructor
    · intro hsome
      by_cases hc : alertOwedSpec (h.pluginStatus.lookup (ext.identity plugin))
          (observation gClient w) = true ∧
          ∀ e ∈ sendResults (alertMSG ext h w gClient plugin) ds (gClient.Verify w).2, e ≠ none
      · exact hc
      · rw [if_neg hc] at herr
        exact absurd herr hsome
    · intro hc
      rw [if_pos hc] at herr
      rw [herr]
      simp
  · intro hnil
    have hlen := sendResults_length (alertMSG ext h w gClient plugin) ds (gClient.Verify w).2
    rw [hnil] at hlen
    exact hne (List.length_eq_zero.mp hlen.symm)
  · intro hno
    rw [herr, if_neg]
    rintro ⟨howed, _⟩
    rw [hno] at howed
    cases howed
  · rintro hdown ⟨e, he, hnone⟩
    rw [herr, if_neg]
    rintro ⟨_, hall⟩
    rw [alertMSG_down ext h w gClient plugin hdown] at hall
    exact hall e he hnone

/-- C4, at a fresh checker whose plugin is down: with two failing dispatchers
the error is returned, with one failing and one working dispatcher it is not. -/
theorem C4_error_iff_all_dispatchers_failed_witness :
    [failDispatcher, failDispatcher] ≠ [] ∧
      (freshChecker.PluginHealthCheck counterExt 0 downClient samplePlugin
        [failDispatcher, failDispatcher]).err ≠ none ∧
      [failDispatcher, okDispatcher] ≠ [] ∧
      (freshChecker.PluginHealthCheck counterExt 0 downClient samplePlugin
        [failDispatcher, okDispatcher]).err = none :=
  ⟨by simp,
    (C4_error_iff_all_dispatchers_failed counterExt freshChecker 0 downClient samplePlugin
      [failDispatcher, failDispatcher] (by simp)).1.mpr ⟨by decide, by decide⟩,
    by simp,
    (C4_error_iff_all_dispatchers_failed counterExt freshChecker 0 downClient samplePlugin
      [failDispatcher, okDispatcher] (by simp)).2.2.2 (by decide) ⟨none, by decide, rfl⟩⟩

/-- C5, refuted as stated: on a fresh checker, a plugin that is down and a
single dispatcher that fails, the check returns Down with an error and the store
holds no status for the identity afterwards. -/
theorem C5_store_not_written_on_error :
    (freshChecker.PluginHealthCheck counterExt 0 downClient samplePlugin
        [failDispatcher]).isAlive = tp.AliveStatus.AliveStatusDown ∧
      (freshChecker.PluginHealthCheck counterExt 0 downClient samplePlugin
        [failDispatcher]).err ≠ none ∧
      (freshChecker.PluginHealthCheck counterExt 0 downClient samplePlugin
        [failDispatcher]).checker.pluginStatus.lookup (counterExt.identity samplePlugin) =
          none := by
  decide

/-- C5, amended: after a check that returns a nil error the store is the store
before with the entry of the identity replaced by the status made of the given
plugin, the returned liveness and the clock reading of this check; after a check
that returns an error the store is the store before. -/
theorem C5_store_written_when_no_error {W : Type} (ext : Externals W) (h : healthChecker) (w : W)
    (gClient : pb.PluginClient W) (plugin : config.Plugin) (ds : List (dp.Dispatcher W)) :
    (h.PluginHealthCheck ext w gClient plugin ds).checker.pluginStatus =
        (if (h.PluginHealthCheck ext w gClient plugin ds).err = none then
          h.pluginStatus.insert (ext.identity plugin)
            ⟨plugin, (h.PluginHealthCheck ext w gClient plugin ds).isAlive,
              ext.Now (h.PluginHealthCheck ext w gClient plugin ds).world⟩
        else h.pluginStatus) ∧
      (h.PluginHealthCheck ext w gClient plugin ds).checker.pluginStatus.lookup
          (ext.identity plugin) =
        (if (h.PluginHealthCheck ext w gClient plugin ds).err = none then
          some ⟨plugin, (h.PluginHealthCheck ext w gClient plugin ds).isAlive,
            ext.Now (h.PluginHealthCheck ext w gClient plugin ds).world⟩
        else h.pluginStatus.lookup (ext.identity plugin)) := by
  rw [check_checker]
  split
  · exact ⟨rfl, AList.lookup_insert _⟩
  · exact ⟨rfl, rfl⟩

/-- C6, refuted as stated: with no dispatcher at all, the first check of a
plugin that is down returns an error. -/
theorem C6_empty_dispatchers_error :
    (freshChecker.PluginHealthCheck counterExt 0 downClient samplePlugin []).err =
      some "Failed to send all configured notifications. " := by
  decide

/-- C6, amended: with an empty dispatcher sequence a check makes no dispatcher
call, returns a nil error when no alert is owed, and returns an error when an
alert is owed. -/
theorem C6_empty_dispatchers_error_iff_owed {W : Type} (ext : Externals W) (h : healthChecker)
    (w : W) (gClient : pb.PluginClient W) (plugin : config.Plugin) :
    (h.PluginHealthCheck ext w gClient plugin []).calls = [] ∧
      ((h.PluginHealthCheck ext w gClient plugin []).err = none ↔
        alertOwed ext h w gClient plugin = false) ∧
      ((h.PluginHealthCheck ext w gClient plugin []).err ≠ none ↔
        alertOwed ext h w gClient plugin = true) := by
  have hcalls : (h.PluginHealthCheck ext w gClient plugin []).calls = [] := by
    rw [check_calls]
    split <;> rfl
  have herr := check_err ext h w gClient plugin []
  rw [hcalls] at herr
  refine ⟨hcalls, ?_, ?_⟩
  · rw [herr]
    cases alertOwed ext h w gClient plugin <;> simp
  · rw [herr]
    cases alertOwed ext h w gClient plugin <;> simp

/-- C7: when an alert is owed to N dispatchers and k < N of the calls fail (so
that N >= 1), `PluginHealthCheck` returns a nil error and the store afterwards
holds, under the identity, the status made of the given plugin, the returned
liveness and the clock reading of this check. -/
theorem C7_partial_failure_is_success {W : Type} (ext : Externals W) (h : healthChecker) (w : W)
    (gClient : pb.PluginClient W) (plugin : config.Plugin) (ds : List (dp.Dispatcher W))
    (howed : alertOwed ext h w gClient plugin = true)
    (hk : (h.PluginHealthCheck ext w gClient plugin ds).calls.countP
        (fun c => c.result.isSome) < ds.length) :
    (h.PluginHealthCheck ext w gClient plugin ds).err = none ∧
      (h.PluginHealthCheck ext w gClient plugin ds).checker.pluginStatus.lookup
          (ext.identity plugin) =
        some ⟨plugin, (h.PluginHealthCheck ext w gClient plugin ds).isAlive,
          ext.Now (h.PluginHealthCheck ext w gClient plugin ds).world⟩ := by
  have hlen := check_calls_length ext h w gClient plugin ds
  rw [howed, if_pos rfl] at hlen
  have herr : (h.PluginHealthCheck ext w gClient plugin ds).err = none := by
    rw [check_err, if_neg]
    rintro ⟨_, hall⟩
    have hcount : (h.PluginHealthCheck ext w gClient plugin ds).calls.countP
        (fun c => c.result.isSome) =
        (h.PluginHealthCheck ext w gClient plugin ds).calls.length := by
      rw [List.countP_eq_length]
      intro c hc
      cases hres : c.result with
      | none => exact absurd hres (hall c hc)
      | some e => rfl
    omega
  refine ⟨herr, ?_⟩
  rw [check_checker, if_pos herr]
  exact AList.lookup_insert _

/-- C7, at a fresh checker whose plugin is down, with one failing and one
working dispatcher. -/
theorem C7_partial_failure_is_success_witness :
    alertOwed counterExt freshChecker 0 downClient samplePlugin = true ∧
      (freshChecker.PluginHealthCheck counterExt 0 downClient samplePlugin
        [failDispatcher, okDispatcher]).calls.countP (fun c => c.result.isSome) <
          [failDispatcher, okDispatcher].length ∧
      (freshChecker.PluginHealthCheck counterExt 0 downClient samplePlugin
        [failDispatcher, okDispatcher]).err = none ∧
      (freshChecker.PluginHealthCheck counterExt 0 downClient samplePlugin
        [failDispatcher, okDispatcher]).checker.pluginStatus.lookup
          (counterExt.identity samplePlugin) =
        some ⟨samplePlugin, tp.AliveStatus.AliveStatusDown, 3⟩ :=
  ⟨by decide, by decide,
    C7_partial_failure_is_success counterExt freshChecker 0 downClient samplePlugin
      [failDispatcher, okDispatcher] (by decide) (by decide)⟩

/-- C8, refuted as stated: the store records the plugin Up, the only dispatcher
fails, and two consecutive checks observe Down; the first returns an error and
leaves the store as it was, and the second calls the dispatcher again. -/
theorem C8_second_check_alerts_again :
    (checkerWith tp.AliveStatus.AliveStatusUp).pluginStatus.lookup
        (counterExt.identity samplePlugin) =
        some ⟨samplePlugin, tp.AliveStatus.AliveStatusUp, 0⟩ ∧
      observation downClient 0 = tp.AliveStatus.AliveStatusDown ∧
      observation downClient
        ((checkerWith tp.AliveStatus.AliveStatusUp).PluginHealthCheck counterExt 0 downClient
          samplePlugin [failDispatcher]).world = tp.AliveStatus.AliveStatusDown ∧
      (((checkerWith tp.AliveStatus.AliveStatusUp).PluginHealthCheck counterExt 0 downClient
          samplePlugin [failDispatcher]).checker.PluginHealthCheck counterExt
        ((checkerWith tp.AliveStatus.AliveStatusUp).PluginHealthCheck counterExt 0 downClient
          samplePlugin [failDispatcher]).world downClient samplePlugin [failDispatcher]).calls =
        [⟨0, defaultMSG samplePlugin "nodelocalhost9091", some "channel unreachable"⟩] := by
  decide

/-- C8, amended: the store records the identity Up and two consecutive checks
of that identity both observe Down. The first check calls every dispatcher
exactly once, in order, with the down message, whatever the dispatchers return;
if at least one dispatcher succeeds on the first check, the second check makes
no dispatcher call. -/
theorem C8_one_alert_per_transition {W : Type} (ext : Externals W) (h : healthChecker) (w : W)
    (gClient gClient2 : pb.PluginClient W) (plugin plugin2 : config.Plugin)
    (ds ds2 : List (dp.Dispatcher W)) (s : tp.PluginStatus) (r1 : CheckResult W)
    (hr1 : r1 = h.PluginHealthCheck ext w gClient plugin ds)
    (hstored : h.pluginStatus.lookup (ext.identity plugin) = some s)
    (hs : s.IsAlive = tp.AliveStatus.AliveStatusUp)
    (hsame : ext.identity plugin2 = ext.identity plugin)
    (hdown1 : observation gClient w = tp.AliveStatus.AliveStatusDown)
    (hdown2 : observation gClient2 r1.world = tp.AliveStatus.AliveStatusDown) :
    r1.calls.map (fun c => (c.index, c.msg)) =
        (List.range ds.length).map (fun k => (k, defaultMSG plugin (ext.identity plugin))) ∧
      r1.calls.map Call.result =
        sendResults (defaultMSG plugin (ext.identity plugin)) ds (gClient.Verify w).2 ∧
      ((∃ e ∈ sendResults (defaultMSG plugin (ext.identity plugin)) ds (gClient.Verify w).2,
          e = none) →
        (r1.checker.PluginHealthCheck ext r1.world gClient2 plugin2 ds2).calls = []) := by
  subst hr1
  have howed : alertOwed ext h w gClient plugin = true := by
    rw [alertOwed_eq_spec, hstored, hdown1]
    simp [alertOwedSpec, hs]
  have hmsg := alertMSG_down ext h w gClient plugin hdown1
  refine ⟨?_, ?_, ?_⟩
  · rw [check_calls, howed, if_pos rfl, recordCalls_index, sendResults_length,
      List.range_eq_range', hmsg]
  · rw [check_calls, howed, if_pos rfl, recordCalls_result, hmsg]
  · rintro ⟨e, he, hnone⟩
    have herr : (h.PluginHealthCheck ext w gClient plugin ds).err = none := by
      rw [check_err_results, if_neg]
      rintro ⟨_, hall⟩
      rw [hmsg] at hall
      exact hall e he hnone
    have hlook : (h.PluginHealthCheck ext w gClient plugin ds).checker.pluginStatus.lookup
        (ext.identity plugin2) =
        some ⟨plugin, tp.AliveStatus.AliveStatusDown,
          ext.Now (h.PluginHealthCheck ext w gClient plugin ds).world⟩ := by
      rw [check_checker, if_pos herr, hsame, check_isAlive, hdown1]
      exact AList.lookup_insert _
    rw [check_calls, alertOwed_eq_spec, hlook, hdown2]
    simp [alertOwedSpec]

/-- C8 amended, at a store that records the sample plugin Up and a plugin that
stays down: with two failing dispatchers the first check still calls both, and
with one failing and one working dispatcher the second check calls nobody. -/
theorem C8_one_alert_per_transition_witness :
    (checkerWith tp.AliveStatus.AliveStatusUp).pluginStatus.lookup
        (counterExt.identity samplePlugin) =
        some ⟨samplePlugin, tp.AliveStatus.AliveStatusUp, 0⟩ ∧
      observation downClient 0 = tp.AliveStatus.AliveStatusDown ∧
      observation downClient
        ((checkerWith tp.AliveStatus.AliveStatusUp).PluginHealthCheck counterExt 0 downClient
          samplePlugin [failDispatcher, okDispatcher]).world = tp.AliveStatus.AliveStatusDown ∧
      ((checkerWith tp.AliveStatus.AliveStatusUp).PluginHealthCheck counterExt 0 downClient
        samplePlugin [failDispatcher, failDispatcher]).calls.map (fun c => (c.index, c.msg)) =
        [(0, defaultMSG samplePlugin "nodelocalhost9091"),
         (1, defaultMSG samplePlugin "nodelocalhost9091")] ∧
      (((checkerWith tp.AliveStatus.AliveStatusUp).PluginHealthCheck counterExt 0 downClient
          samplePlugin [failDispatcher, okDispatcher]).checker.PluginHealthCheck counterExt
        ((checkerWith tp.AliveStatus.AliveStatusUp).PluginHealthCheck counterExt 0 downClient
          samplePlugin [failDispatcher, okDispatcher]).world downClient samplePlugin
        [failDispatcher, okDispatcher]).calls = [] :=
  ⟨by decide, by decide, by decide,
    (C8_one_alert_per_transition counterExt (checkerWith tp.AliveStatus.AliveStatusUp) 0
      downClient downClient samplePlugin samplePlugin [failDispatcher, failDispatcher]
      [failDispatcher, failDispatcher] ⟨samplePlugin, tp.AliveStatus.AliveStatusUp, 0⟩
      ((checkerWith tp.AliveStatus.AliveStatusUp).PluginHealthCheck counterExt 0 downClient
        samplePlugin [failDispatcher, failDispatcher])
      rfl (by decide) rfl rfl (by decide) (by decide)).1,
    (C8_one_alert_per_transition counterExt (checkerWith tp.AliveStatus.AliveStatusUp) 0
      downClient downClient samplePlugin samplePlugin [failDispatcher, okDispatcher]
      [failDispatcher, okDispatcher] ⟨samplePlugin, tp.AliveStatus.AliveStatusUp, 0⟩
      ((checkerWith tp.AliveStatus.AliveStatusUp).PluginHealthCheck counterExt 0 downClient
        samplePlugin [failDispatcher, okDispatcher])
      rfl (by decide) rfl rfl (by decide) (by decide)).2.2 ⟨none, by decide, rfl⟩⟩

/-- C9: when the stored liveness is Down and the observation is Up, an alert is
owed, every dispatcher is called, and the message of every call has severity
info, state success and text "Plugin is Alive.", with the function name, the
resource type and the options of the default down template of the plugin. -/
theorem C9_recovery_message {W : Type} (ext : Externals W) (h : healthChecker) (w : W)
    (gClient : pb.PluginClient W) (plugin : config.Plugin) (ds : List (dp.Dispatcher W))
    (s : tp.PluginStatus)
    (hstored : h.pluginStatus.lookup (ext.identity plugin) = some s)
    (hs : s.IsAlive = tp.AliveStatus.AliveStatusDown)
    (hup : observation gClient w = tp.AliveStatus.AliveStatusUp) :
    alertOwed ext h w gClient plugin = true ∧
      (h.PluginHealthCheck ext w gClient plugin ds).calls.length = ds.length ∧
      ∀ c ∈ (h.PluginHealthCheck ext w gClient plugin ds).calls,
        c.msg.Severity = pb.SEVERITY.INFO ∧
        c.msg.State = pb.STATE.SUCCESS ∧
        c.msg.Msg = "Plugin is Alive." ∧
        c.msg.FuncName = (defaultMSG plugin (ext.identity plugin)).FuncName ∧
        c.msg.ResourceType = (defaultMSG plugin (ext.identity plugin)).ResourceType ∧
        c.msg.Options = (defaultMSG plugin (ext.identity plugin)).Options := by
  have howed : alertOwed ext h w gClient plugin = true := by
    rw [alertOwed_eq_spec, hstored, hup]
    simp [alertOwedSpec, hs]
  refine ⟨howed, ?_, ?_⟩
  · rw [check_calls_length, howed, if_pos rfl]
  · intro c hc
    rw [check_calls_msg ext h w gClient plugin ds c hc,
      alertMSG_recovery ext h w gClient plugin s hstored hs hup]
    exact ⟨rfl, rfl, rfl, rfl, rfl, rfl⟩

/-- C9, at a store that records the sample plugin Down, with a plugin that is
up again and two dispatchers. -/
theorem C9_recovery_message_witness :
    (checkerWith tp.AliveStatus.AliveStatusDown).pluginStatus.lookup
        (counterExt.identity samplePlugin) =
        some ⟨samplePlugin, tp.AliveStatus.AliveStatusDown, 0⟩ ∧
      observation upClient 0 = tp.AliveStatus.AliveStatusUp ∧
      ((checkerWith tp.AliveStatus.AliveStatusDown).PluginHealthCheck counterExt 0 upClient
        samplePlugin [failDispatcher, okDispatcher]).calls.length = 2 ∧
      ∀ c ∈ ((checkerWith tp.AliveStatus.AliveStatusDown).PluginHealthCheck counterExt 0 upClient
          samplePlugin [failDispatcher, okDispatcher]).calls,
        c.msg.Severity = pb.SEVERITY.INFO ∧
        c.msg.State = pb.STATE.SUCCESS ∧
        c.msg.Msg = "Plugin is Alive." ∧
        c.msg.FuncName = "isPluginUp" ∧
        c.msg.ResourceType = "node" ∧
        c.msg.Options = [("pUnique", "nodelocalhost9091")] :=
  ⟨by decide, by decide,
    (C9_recovery_message counterExt (checkerWith tp.AliveStatus.AliveStatusDown) 0 upClient
      samplePlugin [failDispatcher, okDispatcher] ⟨samplePlugin, tp.AliveStatus.AliveStatusDown, 0⟩
      (by decide) rfl (by decide)).2⟩

/-- C10: when the observation is Down and either no status is stored for the
identity or the stored liveness is Up, an alert is owed, every dispatcher is
called, and the message of every call has severity critical, state failure,
function name "isPluginUp", the plugin's name as resource type, and options
whose key "pUnique" holds the identity computed from name, address and port. -/
theorem C10_down_message {W : Type} (ext : Externals W) (h : healthChecker) (w : W)
    (gClient : pb.PluginClient W) (plugin : config.Plugin) (ds : List (dp.Dispatcher W))
    (hdown : observation gClient w = tp.AliveStatus.AliveStatusDown)
    (hprior : h.pluginStatus.lookup (ext.identity plugin) = none ∨
      ∃ s, h.pluginStatus.lookup (ext.identity plugin) = some s ∧
        s.IsAlive = tp.AliveStatus.AliveStatusUp) :
    alertOwed ext h w gClient plugin = true ∧
      (h.PluginHealthCheck ext w gClient plugin ds).calls.length = ds.length ∧
      ∀ c ∈ (h.PluginHealthCheck ext w gClient plugin ds).calls,
        c.msg.Severity = pb.SEVERITY.CRITICAL ∧
        c.msg.State = pb.STATE.FAILURE ∧
        c.msg.FuncName = "isPluginUp" ∧
        c.msg.ResourceType = plugin.Name ∧
        c.msg.Options.lookup "pUnique" =
          some (ext.MakeUniqueValue plugin.Name plugin.Address plugin.Port) := by
  have howed : alertOwed ext h w gClient plugin = true := by
    rw [alertOwed_eq_spec, hdown]
    rcases hprior with hnone | ⟨s, hsome, hs⟩
    · rw [hnone]
      rfl
    · rw [hsome]
      simp [alertOwedSpec, hs]
  refine ⟨howed, ?_, ?_⟩
  · rw [check_calls_length, howed, if_pos rfl]
  · intro c hc
    rw [check_calls_msg ext h w gClient plugin ds c hc, alertMSG_down ext h w gClient plugin hdown]
    refine ⟨rfl, rfl, rfl, rfl, ?_⟩
    simp [defaultMSG, List.lookup, Externals.identity]

/-- C10, at a fresh checker whose plugin is down, with two dispatchers. -/
theorem C10_down_message_witness :
    observation downClient 0 = tp.AliveStatus.AliveStatusDown ∧
      freshChecker.pluginStatus.lookup (counterExt.identity samplePlugin) = none ∧
      (freshChecker.PluginHealthCheck counterExt 0 downClient samplePlugin
        [failDispatcher, okDispatcher]).calls.length = 2 ∧
      ∀ c ∈ (freshChecker.PluginHealthCheck counterExt 0 downClient samplePlugin
          [failDispatcher, okDispatcher]).calls,
        c.msg.Severity = pb.SEVERITY.CRITICAL ∧
        c.msg.State = pb.STATE.FAILURE ∧
        c.msg.FuncName = "isPluginUp" ∧
        c.msg.ResourceType = "node" ∧
        c.msg.Options.lookup "pUnique" = some "nodelocalhost9091" :=
  ⟨by decide, by decide,
    (C10_down_message counterExt freshChecker 0 downClient samplePlugin
      [failDispatcher, okDispatcher] (by decide) (Or.inl (by decide))).2⟩

/-! ## The status query, the heartbeat and histories of checks -/

theorem Range_collect (es : List (Sigma fun _ : String => tp.PluginStatus))
    (acc : List tp.PluginStatus) :
    Range (fun _ curStatus status => (status ++ [curStatus], true)) es acc =
      acc ++ es.map (fun e => e.2) := by
  induction es generalizing acc with
  | nil => simp [Range]
  | cons e rest ih => simp [Range, ih]

theorem PluginStatus_eq (h : healthChecker) :
    h.PluginStatus = (h.pluginStatus.entries.map (fun e => e.2), h) := by
  unfold healthChecker.PluginStatus
  simp [Range_collect]

theorem heartbeatLoop_eq {W : Type} (msg : tp.ReqMsg) (ds : List (dp.Dispatcher W)) (i : Nat)
    (w : W) (calls : List Call) :
    heartbeatLoop msg ds i w calls =
      (sendWorld msg ds w, calls ++ recordCalls msg i (sendResults msg ds w)) := by
  induction ds generalizing i w calls with
  | nil => simp [heartbeatLoop, sendWorld, sendResults, recordCalls]
  | cons d rest ih => simp [heartbeatLoop, sendWorld, sendResults, recordCalls, ih]

theorem registerLoop_entries {W : Type} (validSpec : String → Bool) (h : healthChecker)
    (ds : List (dp.Dispatcher W)) (schedule : List String) (c : Cron W) :
    (registerLoop validSpec h ds schedule c).entries =
        c.entries ++ (schedule.filter validSpec).map
          (fun spec => ⟨spec, fun w => heartbeatLoop h.healthMSG ds 0 w []⟩) ∧
      (registerLoop validSpec h ds schedule c).running = c.running := by
  induction schedule generalizing c with
  | nil => simp [registerLoop]
  | cons spec rest ih =>
    unfold registerLoop Cron.AddFunc
    by_cases hv : validSpec spec = true
    · simp [hv, ih]
    · simp [hv, ih]

theorem check_lookup {W : Type} (ext : Externals W) (h : healthChecker) (w : W)
    (gClient : pb.PluginClient W) (plugin : config.Plugin) (ds : List (dp.Dispatcher W))
    (k : String) :
    (h.PluginHealthCheck ext w gClient plugin ds).checker.pluginStatus.lookup k =
      if ext.identity plugin = k ∧ (h.PluginHealthCheck ext w gClient plugin ds).err = none then
        some ⟨plugin, (h.PluginHealthCheck ext w gClient plugin ds).isAlive,
          ext.Now (h.PluginHealthCheck ext w gClient plugin ds).world⟩
      else h.pluginStatus.lookup k := by
  rw [check_checker]
  by_cases herr : (h.PluginHealthCheck ext w gClient plugin ds).err = none
  · rw [if_pos herr]
    by_cases hk : ext.identity plugin = k
    · rw [if_pos ⟨hk, herr⟩, ← hk]
      exact AList.lookup_insert _
    · rw [if_neg (fun hc => hk hc.1)]
      exact AList.lookup_insert_ne (fun hc => hk hc.symm)
  · rw [if_neg herr, if_neg (fun hc => herr hc.2)]

theorem check_healthMSG {W : Type} (ext : Externals W) (h : healthChecker) (w : W)
    (gClient : pb.PluginClient W) (plugin : config.Plugin) (ds : List (dp.Dispatcher W)) :
    (h.PluginHealthCheck ext w gClient plugin ds).checker.healthMSG = h.healthMSG := by
  rw [check_checker]
  split <;> rfl

theorem runChecks_lookup {W : Type} (ext : Externals W) (h : healthChecker) (w : W)
    (reqs : List (CheckRequest W)) (k : String) :
    (runChecks ext h w reqs).1.pluginStatus.lookup k =
      match lastWritten ext k (runChecks ext h w reqs).2 with
      | some s => some s
      | none => h.pluginStatus.lookup k := by
  induction reqs generalizing h w with
  | nil => simp [runChecks, lastWritten]
  | cons q rest ih =>
    simp only [runChecks, lastWritten]
    rw [ih]
    cases hlast : lastWritten ext k
        (runChecks ext (h.PluginHealthCheck ext w q.gClient q.plugin q.dispatchers).checker
          (h.PluginHealthCheck ext w q.gClient q.plugin q.dispatchers).world rest).2 with
    | some s => rfl
    | none =>
      simp only
      rw [check_lookup]
      split <;> rfl

theorem lastWritten_none {W : Type} (ext : Externals W) (k : String)
    (t : List (config.Plugin × CheckResult W)) (hnone : lastWritten ext k t = none) :
    ∀ pr ∈ t, ¬ (ext.identity pr.1 = k ∧ pr.2.err = none) := by
  induction t with
  | nil => simp
  | cons pr rest ih =>
    simp only [lastWritten] at hnone
    cases hrest : lastWritten ext k rest with
    | some s => simp [hrest] at hnone
    | none =>
      rw [hrest] at hnone
      simp only at hnone
      intro q hq
      rcases List.mem_cons.mp hq with rfl | hq
      · intro hc
        rw [if_pos hc] at hnone
        cases hnone
      · exact ih hrest q hq

theorem lastWritten_decomp {W : Type} (ext : Externals W) (k : String)
    (t : List (config.Plugin × CheckResult W)) (s : tp.PluginStatus)
    (hsome : lastWritten ext k t = some s) :
    ∃ before p r after, t = before ++ (p, r) :: after ∧ ext.identity p = k ∧ r.err = none ∧
      (∀ q ∈ after, ¬ (ext.identity q.1 = k ∧ q.2.err = none)) ∧
      s = ⟨p, r.isAlive, ext.Now r.world⟩ := by
  induction t with
  | nil => simp [lastWritten] at hsome
  | cons pr rest ih =>
    simp only [lastWritten] at hsome
    cases hrest : lastWritten ext k rest with
    | some s2 =>
      rw [hrest] at hsome
      simp only [Option.some.injEq] at hsome
      subst hsome
      obtain ⟨before, p, r, after, ht, hk, herr, hafter, hs⟩ := ih hrest
      exact ⟨pr :: before, p, r, after, by rw [ht]; rfl, hk, herr, hafter, hs⟩
    | none =>
      rw [hrest] at hsome
      simp only at hsome
      by_cases hc : ext.identity pr.1 = k ∧ pr.2.err = none
      · rw [if_pos hc] at hsome
        simp only [Option.some.injEq] at hsome
        exact ⟨[], pr.1, pr.2, rest, rfl, hc.1, hc.2, lastWritten_none ext k rest hrest,
          hsome.symm⟩
      · rw [if_neg hc] at hsome
        cases hsome

theorem lastWritten_identity {W : Type} (ext : Externals W) (k : String)
    (t : List (config.Plugin × CheckResult W)) (s : tp.PluginStatus)
    (hsome : lastWritten ext k t = some s) : ext.identity s.Plugin = k := by
  obtain ⟨_, p, r, _, _, hk, _, _, hs⟩ := lastWritten_decomp ext k t s hsome
  rw [hs]
  exact hk

theorem lastWritten_isSome_iff {W : Type} (ext : Externals W) (k : String)
    (t : List (config.Plugin × CheckResult W)) :
    (∃ s, lastWritten ext k t = some s) ↔ k ∈ writtenIdentities ext t := by
  unfold writtenIdentities
  rw [List.mem_dedup, List.mem_map]
  constructor
  · rintro ⟨s, hs⟩
    obtain ⟨before, p, r, after, ht, hk, herr, _, _⟩ := lastWritten_decomp ext k t s hs
    refine ⟨(p, r), ?_, hk⟩
    rw [List.mem_filter]
    refine ⟨?_, by simp [herr]⟩
    rw [ht]
    simp
  · rintro ⟨pr, hpr, hk⟩
    rw [List.mem_filter] at hpr
    cases hlast : lastWritten ext k t with
    | some s => exact ⟨s, rfl⟩
    | none =>
      exfalso
      refine lastWritten_none ext k t hlast pr hpr.1 ⟨hk, ?_⟩
      have := hpr.2
      cases herr : pr.2.err with
      | none => rfl
      | some e => simp [herr] at this

theorem entries_lookup (m : StatusMap) :
    ∀ e ∈ m.entries, m.lookup e.1 = some e.2 := by
  intro e he
  have hmem : (⟨e.1, e.2⟩ : Sigma fun _ : String => tp.PluginStatus) ∈ m.entries := he
  exact Option.mem_def.mp (AList.mem_lookup_iff.mpr hmem)

theorem PluginStatus_per_key (h : healthChecker) :
    h.PluginStatus.1.map some = h.pluginStatus.keys.map (fun k => h.pluginStatus.lookup k) := by
  rw [PluginStatus_eq]
  simp only [AList.keys, List.keys, List.map_map]
  apply List.map_congr_left
  intro e he
  exact (entries_lookup h.pluginStatus e he).symm

/-- C11, refuted as stated: from an empty store, one identity is checked (the
plugin is down and the only dispatcher fails), and `PluginStatus` returns no
entry at all. -/
theorem C11_checked_identity_without_entry :
    (checkedIdentities counterExt
        (runChecks counterExt freshChecker 0
          [⟨downClient, samplePlugin, [failDispatcher]⟩]).2).length = 1 ∧
      (runChecks counterExt freshChecker 0
        [⟨downClient, samplePlugin, [failDispatcher]⟩]).1.PluginStatus.1 = [] := by
  decide

/-- C11, amended: from an empty store and after any checks, the identities of
the entries `PluginStatus` returns are, each exactly once, the identities that
have a check that returned a nil error; so there are as many entries as such
identities, and every entry is the status of the most recent check of its
identity that returned a nil error. -/
theorem C11_one_entry_per_written_identity {W : Type} (ext : Externals W) (healthMSG : tp.ReqMsg)
    (w : W) (reqs : List (CheckRequest W)) :
    ((runChecks ext ⟨healthMSG, ∅⟩ w reqs).1.PluginStatus.1.map
        (fun s => ext.identity s.Plugin)).Perm
        (writtenIdentities ext (runChecks ext ⟨healthMSG, ∅⟩ w reqs).2) ∧
      (runChecks ext ⟨healthMSG, ∅⟩ w reqs).1.PluginStatus.1.length =
        (writtenIdentities ext (runChecks ext ⟨healthMSG, ∅⟩ w reqs).2).length ∧
      ∀ s ∈ (runChecks ext ⟨healthMSG, ∅⟩ w reqs).1.PluginStatus.1,
        lastWritten ext (ext.identity s.Plugin) (runChecks ext ⟨healthMSG, ∅⟩ w reqs).2 =
          some s := by
  have hlook : ∀ k, (runChecks ext ⟨healthMSG, ∅⟩ w reqs).1.pluginStatus.lookup k =
      lastWritten ext k (runChecks ext ⟨healthMSG, ∅⟩ w reqs).2 := by
    intro k
    rw [runChecks_lookup]
    cases lastWritten ext k (runChecks ext ⟨healthMSG, ∅⟩ w reqs).2 with
    | some s => rfl
    | none => exact AList.lookup_empty k
  have hentry : ∀ e ∈ (runChecks ext ⟨healthMSG, ∅⟩ w reqs).1.pluginStatus.entries,
      lastWritten ext e.1 (runChecks ext ⟨healthMSG, ∅⟩ w reqs).2 = some e.2 := by
    intro e he
    rw [← hlook]
    exact entries_lookup _ e he
  have hkeys : (runChecks ext ⟨healthMSG, ∅⟩ w reqs).1.PluginStatus.1.map
      (fun s => ext.identity s.Plugin) =
      (runChecks ext ⟨healthMSG, ∅⟩ w reqs).1.pluginStatus.keys := by
    rw [PluginStatus_eq]
    simp only [AList.keys, List.keys, List.map_map]
    apply List.map_congr_left
    intro e he
    exact lastWritten_identity ext e.1 _ e.2 (hentry e he)
  have hperm : ((runChecks ext ⟨healthMSG, ∅⟩ w reqs).1.PluginStatus.1.map
      (fun s => ext.identity s.Plugin)).Perm
      (writtenIdentities ext (runChecks ext ⟨healthMSG, ∅⟩ w reqs).2) := by
    rw [hkeys]
    refine (List.perm_ext_iff_of_nodup (AList.keys_nodup _) (List.nodup_dedup _)).mpr ?_
    intro k
    refine Iff.trans ?_ (lastWritten_isSome_iff ext k _)
    rw [← AList.mem_keys, ← AList.lookup_isSome, hlook, Option.isSome_iff_exists]
  refine ⟨hperm, ?_, ?_⟩
  · rw [← hperm.length_eq, List.length_map]
  · intro s hs
    rw [PluginStatus_eq] at hs
    obtain ⟨e, he, rfl⟩ := List.mem_map.mp hs
    have h1 := hentry e he
    rw [lastWritten_identity ext e.1 _ e.2 h1]
    exact h1

/-- C12: `PluginStatus` leaves the checker, and with it the store, as it was,
and returns exactly one status value per key of the store, the one stored under
that key; so the length of the result is the number of stored identities. -/
theorem C12_PluginStatus_is_a_snapshot (h : healthChecker) :
    h.PluginStatus.2 = h ∧
      h.PluginStatus.1.map some =
        h.pluginStatus.keys.map (fun k => h.pluginStatus.lookup k) ∧
      h.PluginStatus.1.length = h.pluginStatus.keys.length := by
  refine ⟨by rw [PluginStatus_eq], PluginStatus_per_key h, ?_⟩
  have hlen := congrArg List.length (PluginStatus_per_key h)
  simpa using hlen

/-- C13: `VATZHealthCheck` returns a nil error for every schedule and every
dispatcher sequence; the started scheduler holds one job for every well-formed
expression of the schedule, in order, whatever malformed expressions stand
before it; and each job, fired in any world, calls every dispatcher once, in
order, with the checker's heartbeat message, each in the world left by the ones
before it whatever they returned. -/
theorem C13_heartbeat_registration {W : Type} (validSpec : String → Bool) (h : healthChecker)
    (schedule : List String) (ds : List (dp.Dispatcher W)) :
    (h.VATZHealthCheck validSpec schedule ds).1 = none ∧
      (h.VATZHealthCheck validSpec schedule ds).2.running = true ∧
      (h.VATZHealthCheck validSpec schedule ds).2.entries.map CronEntry.spec =
        schedule.filter validSpec ∧
      ∀ e ∈ (h.VATZHealthCheck validSpec schedule ds).2.entries, ∀ w : W,
        (e.cmd w).2.map (fun c => (c.index, c.msg)) =
            (List.range ds.length).map (fun k => (k, h.healthMSG)) ∧
          (e.cmd w).2.map Call.result = sendResults h.healthMSG ds w ∧
          (e.cmd w).1 = sendWorld h.healthMSG ds w := by
  have hreg := registerLoop_entries validSpec h ds schedule (Cron.New : Cron W)
  have hentries : (h.VATZHealthCheck validSpec schedule ds).2.entries =
      (schedule.filter validSpec).map
        (fun spec => ⟨spec, fun w => heartbeatLoop h.healthMSG ds 0 w []⟩) := by
    unfold healthChecker.VATZHealthCheck Cron.Start
    simp only [hreg.1]
    simp [Cron.New]
  refine ⟨rfl, rfl, ?_, ?_⟩
  · rw [hentries]
    simp [List.map_map, Function.comp_def]
  · intro e he w
    rw [hentries] at he
    obtain ⟨spec, _, rfl⟩ := List.mem_map.mp he
    simp only [heartbeatLoop_eq, List.nil_append]
    refine ⟨?_, recordCalls_result _ _ _, trivial⟩
    rw [recordCalls_index, sendResults_length, List.range_eq_range']

/-- C14: a check of a plugin with identity X leaves the stored status of every
other identity Y as it was (present or absent, with the same descriptor,
liveness and timestamp), and every key of the store before the check is a key of
the store after it. -/
theorem C14_other_identities_untouched {W : Type} (ext : Externals W) (h : healthChecker) (w : W)
    (gClient : pb.PluginClient W) (plugin : config.Plugin) (ds : List (dp.Dispatcher W))
    (Y : String) (hY : Y ≠ ext.identity plugin) :
    (h.PluginHealthCheck ext w gClient plugin ds).checker.pluginStatus.lookup Y =
        h.pluginStatus.lookup Y ∧
      h.pluginStatus.keys ⊆ (h.PluginHealthCheck ext w gClient plugin ds).checker.pluginStatus.keys := by
  constructor
  · rw [check_lookup, if_neg]
    exact fun hc => hY hc.1.symm
  · intro k hk
    rw [check_checker]
    split
    · rw [← AList.mem_keys, AList.mem_insert]
      exact Or.inr (AList.mem_keys.mpr hk)
    · exact hk

/-- C14, at a store that records the other plugin, on a check of the sample
plugin. -/
theorem C14_other_identities_untouched_witness :
    "relaylocalhost9092" ≠ counterExt.identity samplePlugin ∧
      (checkerWithOther.PluginHealthCheck counterExt 0 downClient samplePlugin
          [okDispatcher]).checker.pluginStatus.lookup "relaylocalhost9092" =
        some ⟨otherPlugin, tp.AliveStatus.AliveStatusUp, 0⟩ :=
  ⟨by decide,
    (C14_other_identities_untouched counterExt checkerWithOther 0 downClient samplePlugin
      [okDispatcher] "relaylocalhost9092" (by decide)).1.trans (by decide)⟩

/-- C15: when `PluginHealthCheck` returns a non-nil error the checker is the
one it was called on, so no entry of the store is created or overwritten; when
it returns a nil error the store is the store before with the entry of the
identity replaced by the new status. -/
theorem C15_store_written_iff_no_error {W : Type} (ext : Externals W) (h : healthChecker) (w : W)
    (gClient : pb.PluginClient W) (plugin : config.Plugin) (ds : List (dp.Dispatcher W)) :
    ((h.PluginHealthCheck ext w gClient plugin ds).err ≠ none →
        (h.PluginHealthCheck ext w gClient plugin ds).checker = h) ∧
      ((h.PluginHealthCheck ext w gClient plugin ds).err = none →
        (h.PluginHealthCheck ext w gClient plugin ds).checker.pluginStatus =
            h.pluginStatus.insert (ext.identity plugin)
              ⟨plugin, (h.PluginHealthCheck ext w gClient plugin ds).isAlive,
                ext.Now (h.PluginHealthCheck ext w gClient plugin ds).world⟩ ∧
          (h.PluginHealthCheck ext w gClient plugin ds).checker.pluginStatus.lookup
              (ext.identity plugin) =
            some ⟨plugin, (h.PluginHealthCheck ext w gClient plugin ds).isAlive,
              ext.Now (h.PluginHealthCheck ext w gClient plugin ds).world⟩) := by
  constructor
  · intro herr
    rw [check_checker, if_neg herr]
  · intro herr
    constructor
    · rw [check_checker, if_pos herr]
    · rw [check_lookup, if_pos ⟨rfl, herr⟩]

/-- C15, at a store that records the sample plugin Up: with a failing
dispatcher the check of the plugin, now down, returns an error and the checker
is unchanged; with a working dispatcher it returns no error and the entry is the
new status. -/
theorem C15_store_written_iff_no_error_witness :
    ((checkerWith tp.AliveStatus.AliveStatusUp).PluginHealthCheck counterExt 0 downClient
        samplePlugin [failDispatcher]).err ≠ none ∧
      ((checkerWith tp.AliveStatus.AliveStatusUp).PluginHealthCheck counterExt 0 downClient
        samplePlugin [failDispatcher]).checker = checkerWith tp.AliveStatus.AliveStatusUp ∧
      ((checkerWith tp.AliveStatus.AliveStatusUp).PluginHealthCheck counterExt 0 downClient
        samplePlugin [okDispatcher]).err = none ∧
      ((checkerWith tp.AliveStatus.AliveStatusUp).PluginHealthCheck counterExt 0 downClient
          samplePlugin [okDispatcher]).checker.pluginStatus.lookup
          (counterExt.identity samplePlugin) =
        some ⟨samplePlugin, tp.AliveStatus.AliveStatusDown, 2⟩ :=
  ⟨by decide,
    (C15_store_written_iff_no_error counterExt (checkerWith tp.AliveStatus.AliveStatusUp) 0
      downClient samplePlugin [failDispatcher]).1 (by decide),
    by decide,
    ((C15_store_written_iff_no_error counterExt (checkerWith tp.AliveStatus.AliveStatusUp) 0
      downClient samplePlugin [okDispatcher]).2 (by decide)).2⟩

theorem verifyFailed_congr {W : Type} (gClient gClient2 : pb.PluginClient W) (w w2 : W)
    (hobs : observation gClient2 w2 = observation gClient w) :
    verifyFailed (gClient2.Verify w2).1.1 (gClient2.Verify w2).1.2 =
      verifyFailed (gClient.Verify w).1.1 (gClient.Verify w).1.2 := by
  have h1 := verifyFailed_iff gClient w
  have h2 := verifyFailed_iff gClient2 w2
  rw [hobs] at h2
  cases hv : verifyFailed (gClient.Verify w).1.1 (gClient.Verify w).1.2 with
  | true => exact h2.mpr (h1.mp hv)
  | false =>
    cases hv2 : verifyFailed (gClient2.Verify w2).1.1 (gClient2.Verify w2).1.2 with
    | false => rfl
    | true =>
      have := h1.mpr (h2.mp hv2)
      rw [hv] at this
      cases this

theorem alertMSG_text_congr {W : Type} (ext : Externals W) (h h2 : healthChecker) (w w2 : W)
    (gClient gClient2 : pb.PluginClient W) (plugin plugin2 : config.Plugin)
    (hlook : h2.pluginStatus.lookup (ext.identity plugin2) =
      h.pluginStatus.lookup (ext.identity plugin))
    (hobs : observation gClient2 w2 = observation gClient w) :
    (alertMSG ext h2 w2 gClient2 plugin2).Severity = (alertMSG ext h w gClient plugin).Severity ∧
      (alertMSG ext h2 w2 gClient2 plugin2).State = (alertMSG ext h w gClient plugin).State ∧
      (alertMSG ext h2 w2 gClient2 plugin2).Msg = (alertMSG ext h w gClient plugin).Msg := by
  unfold alertMSG alertDecision
  rw [hlook, verifyFailed_congr gClient gClient2 w w2 hobs]
  cases h.pluginStatus.lookup (ext.identity plugin) with
  | none =>
    cases verifyFailed (gClient.Verify w).1.1 (gClient.Verify w).1.2 <;>
      exact ⟨rfl, rfl, rfl⟩
  | some s =>
    cases verifyFailed (gClient.Verify w).1.1 (gClient.Verify w).1.2 <;>
      cases hs : s.IsAlive <;>
      simp [hs, defaultMSG, tp.ReqMsg.UpdateSeverity, tp.ReqMsg.UpdateState, tp.ReqMsg.UpdateMSG]

theorem alertOwed_congr {W : Type} (ext : Externals W) (h h2 : healthChecker) (w w2 : W)
    (gClient gClient2 : pb.PluginClient W) (plugin plugin2 : config.Plugin)
    (hlook : h2.pluginStatus.lookup (ext.identity plugin2) =
      h.pluginStatus.lookup (ext.identity plugin))
    (hobs : observation gClient2 w2 = observation gClient w) :
    alertOwed ext h2 w2 gClient2 plugin2 = alertOwed ext h w gClient plugin := by
  rw [alertOwed_eq_spec, alertOwed_eq_spec, hlook, hobs]

/-- C16: when a check returns a non-nil error, the next check of the same
identity with the same observation owes an alert again and calls every
dispatcher of its sequence once, in order, with a message that has the severity,
the state and the text of the message of the failed check. -/
theorem C16_failed_alert_is_retried {W : Type} (ext : Externals W) (h : healthChecker) (w : W)
    (gClient gClient2 : pb.PluginClient W) (plugin plugin2 : config.Plugin)
    (ds ds2 : List (dp.Dispatcher W)) (r1 : CheckResult W)
    (hr1 : r1 = h.PluginHealthCheck ext w gClient plugin ds)
    (herr : r1.err ≠ none)
    (hsame : ext.identity plugin2 = ext.identity plugin)
    (hobs : observation gClient2 r1.world = observation gClient w) :
    alertOwed ext r1.checker r1.world gClient2 plugin2 = true ∧
      (r1.checker.PluginHealthCheck ext r1.world gClient2 plugin2 ds2).calls.map Call.index =
        List.range ds2.length ∧
      ∀ c ∈ (r1.checker.PluginHealthCheck ext r1.world gClient2 plugin2 ds2).calls,
        c.msg.Severity = (alertMSG ext h w gClient plugin).Severity ∧
        c.msg.State = (alertMSG ext h w gClient plugin).State ∧
        c.msg.Msg = (alertMSG ext h w gClient plugin).Msg := by
  subst hr1
  have howed1 : alertOwed ext h w gClient plugin = true := by
    have he := check_err ext h w gClient plugin ds
    by_cases hc : alertOwed ext h w gClient plugin = true ∧
        ∀ c ∈ (h.PluginHealthCheck ext w gClient plugin ds).calls, c.result ≠ none
    · exact hc.1
    · rw [if_neg hc] at he
      exact absurd he herr
  have hsame_checker : (h.PluginHealthCheck ext w gClient plugin ds).checker = h := by
    rw [check_checker, if_neg herr]
  have hlook : (h.PluginHealthCheck ext w gClient plugin ds).checker.pluginStatus.lookup
      (ext.identity plugin2) = h.pluginStatus.lookup (ext.identity plugin) := by
    rw [hsame_checker, hsame]
  have howed2 := (alertOwed_congr ext h _ w _ gClient gClient2 plugin plugin2 hlook hobs).trans
    howed1
  refine ⟨howed2, ?_, ?_⟩
  · have hc := (check_calls_in_order ext _ _ gClient2 plugin2 ds2 howed2)
    have := congrArg (List.map Prod.fst) hc
    simpa [List.map_map, Function.comp_def] using this
  · intro c hc
    rw [check_calls_msg ext _ _ gClient2 plugin2 ds2 c hc]
    exact alertMSG_text_congr ext h _ w _ gClient gClient2 plugin plugin2 hlook hobs

/-- C16, at a store that records the sample plugin Up, with a plugin that stays
down and a single dispatcher that fails. -/
theorem C16_failed_alert_is_retried_witness :
    ((checkerWith tp.AliveStatus.AliveStatusUp).PluginHealthCheck counterExt 0 downClient
        samplePlugin [failDispatcher]).err ≠ none ∧
      alertOwed counterExt
        ((checkerWith tp.AliveStatus.AliveStatusUp).PluginHealthCheck counterExt 0 downClient
          samplePlugin [failDispatcher]).checker
        ((checkerWith tp.AliveStatus.AliveStatusUp).PluginHealthCheck counterExt 0 downClient
          samplePlugin [failDispatcher]).world downClient samplePlugin = true ∧
      (((checkerWith tp.AliveStatus.AliveStatusUp).PluginHealthCheck counterExt 0 downClient
          samplePlugin [failDispatcher]).checker.PluginHealthCheck counterExt
        ((checkerWith tp.AliveStatus.AliveStatusUp).PluginHealthCheck counterExt 0 downClient
          samplePlugin [failDispatcher]).world downClient samplePlugin
        [failDispatcher]).calls.map Call.index = List.range [failDispatcher].length :=
  ⟨by decide,
    (C16_failed_alert_is_retried counterExt (checkerWith tp.AliveStatus.AliveStatusUp) 0
      downClient downClient samplePlugin samplePlugin [failDispatcher] [failDispatcher]
      ((checkerWith tp.AliveStatus.AliveStatusUp).PluginHealthCheck counterExt 0 downClient
        samplePlugin [failDispatcher])
      rfl (by decide) rfl (by decide)).1,
    (C16_failed_alert_is_retried counterExt (checkerWith tp.AliveStatus.AliveStatusUp) 0
      downClient downClient samplePlugin samplePlugin [failDispatcher] [failDispatcher]
      ((checkerWith tp.AliveStatus.AliveStatusUp).PluginHealthCheck counterExt 0 downClient
        samplePlugin [failDispatcher])
      rfl (by decide) rfl (by decide)).2.1⟩

/-- C17: on two checkers whose stores agree on the entry, or on the absence of
an entry, for the identity of the plugin, a check with the same client,
dispatchers and world returns the same liveness and error, makes the same calls
with the same results, leaves the same world, and leaves the same entry for the
identity, whatever the two stores hold for other identities. -/
theorem C17_other_entries_do_not_interfere {W : Type} (ext : Externals W)
    (h1 h2 : healthChecker) (w : W) (gClient : pb.PluginClient W) (plugin : config.Plugin)
    (ds : List (dp.Dispatcher W))
    (hagree : h1.pluginStatus.lookup (ext.identity plugin) =
      h2.pluginStatus.lookup (ext.identity plugin)) :
    (h1.PluginHealthCheck ext w gClient plugin ds).isAlive =
        (h2.PluginHealthCheck ext w gClient plugin ds).isAlive ∧
      (h1.PluginHealthCheck ext w gClient plugin ds).err =
        (h2.PluginHealthCheck ext w gClient plugin ds).err ∧
      (h1.PluginHealthCheck ext w gClient plugin ds).calls =
        (h2.PluginHealthCheck ext w gClient plugin ds).calls ∧
      (h1.PluginHealthCheck ext w gClient plugin ds).world =
        (h2.PluginHealthCheck ext w gClient plugin ds).world ∧
      (h1.PluginHealthCheck ext w gClient plugin ds).checker.pluginStatus.lookup
          (ext.identity plugin) =
        (h2.PluginHealthCheck ext w gClient plugin ds).checker.pluginStatus.lookup
          (ext.identity plugin) := by
  have howed : alertOwed ext h1 w gClient plugin = alertOwed ext h2 w gClient plugin := by
    unfold alertOwed
    rw [hagree]
  have hmsg : alertMSG ext h1 w gClient plugin = alertMSG ext h2 w gClient plugin := by
    unfold alertMSG
    rw [hagree]
  have halive : (h1.PluginHealthCheck ext w gClient plugin ds).isAlive =
      (h2.PluginHealthCheck ext w gClient plugin ds).isAlive := by
    rw [check_isAlive, check_isAlive]
  have hcalls : (h1.PluginHealthCheck ext w gClient plugin ds).calls =
      (h2.PluginHealthCheck ext w gClient plugin ds).calls := by
    rw [check_calls, check_calls, howed, hmsg]
  have hworld : (h1.PluginHealthCheck ext w gClient plugin ds).world =
      (h2.PluginHealthCheck ext w gClient plugin ds).world := by
    rw [check_world, check_world, howed, hmsg]
  have herr : (h1.PluginHealthCheck ext w gClient plugin ds).err =
      (h2.PluginHealthCheck ext w gClient plugin ds).err := by
    rw [check_err, check_err ext h2, howed, hcalls]
  refine ⟨halive, herr, hcalls, hworld, ?_⟩
  rw [check_lookup, check_lookup, herr, halive, hworld, hagree]

/-- C17, on the fresh checker and on a checker that records another plugin. -/
theorem C17_other_entries_do_not_interfere_witness :
    freshChecker.pluginStatus.lookup (counterExt.identity samplePlugin) =
        checkerWithOther.pluginStatus.lookup (counterExt.identity samplePlugin) ∧
      (freshChecker.PluginHealthCheck counterExt 0 downClient samplePlugin
          [failDispatcher, okDispatcher]).calls =
        (checkerWithOther.PluginHealthCheck counterExt 0 downClient samplePlugin
          [failDispatcher, okDispatcher]).calls :=
  ⟨by decide,
    (C17_other_entries_do_not_interfere counterExt freshChecker checkerWithOther 0 downClient
      samplePlugin [failDispatcher, okDispatcher] (by decide)).2.2.1⟩

/-- C18: in a store reached from the empty store by checks, an entry stored
under key `k` has liveness Up or Down, a descriptor whose identity is `k`, and
the descriptor and the liveness of the most recent check of identity `k` that
returned a nil error. -/
theorem C18_stored_liveness_is_last_written {W : Type} (ext : Externals W) (healthMSG : tp.ReqMsg)
    (w : W) (reqs : List (CheckRequest W)) (k : String) (s : tp.PluginStatus)
    (hstored : (runChecks ext ⟨healthMSG, ∅⟩ w reqs).1.pluginStatus.lookup k = some s) :
    (s.IsAlive = tp.AliveStatus.AliveStatusUp ∨ s.IsAlive = tp.AliveStatus.AliveStatusDown) ∧
      ext.identity s.Plugin = k ∧
      ∃ before p r after,
        (runChecks ext ⟨healthMSG, ∅⟩ w reqs).2 = before ++ (p, r) :: after ∧
        ext.identity p = k ∧ r.err = none ∧
        (∀ q ∈ after, ¬ (ext.identity q.1 = k ∧ q.2.err = none)) ∧
        s.Plugin = p ∧ s.IsAlive = r.isAlive := by
  have hlast : lastWritten ext k (runChecks ext ⟨healthMSG, ∅⟩ w reqs).2 = some s := by
    rw [runChecks_lookup] at hstored
    cases hl : lastWritten ext k (runChecks ext ⟨healthMSG, ∅⟩ w reqs).2 with
    | some s2 =>
      rw [hl] at hstored
      exact hstored
    | none =>
      rw [hl] at hstored
      simp only [AList.lookup_empty] at hstored
      cases hstored
  refine ⟨?_, lastWritten_identity ext k _ s hlast, ?_⟩
  · cases s.IsAlive
    · exact Or.inl rfl
    · exact Or.inr rfl
  · obtain ⟨before, p, r, after, ht, hk, herr, hafter, hs⟩ := lastWritten_decomp ext k _ s hlast
    exact ⟨before, p, r, after, ht, hk, herr, hafter, by rw [hs], by rw [hs]⟩

/-- C18, after the three sample checks: the entry of the sample plugin is the
one written by the third check, the first having returned an error. -/
theorem C18_stored_liveness_is_last_written_witness :
    (runChecks counterExt ⟨sampleHealthMSG, ∅⟩ 0 sampleRequests).1.pluginStatus.lookup
        "nodelocalhost9091" = some ⟨samplePlugin, tp.AliveStatus.AliveStatusDown, 6⟩ ∧
      counterExt.identity samplePlugin = "nodelocalhost9091" :=
  ⟨by decide,
    (C18_stored_liveness_is_last_written counterExt sampleHealthMSG 0 sampleRequests
      "nodelocalhost9091" ⟨samplePlugin, tp.AliveStatus.AliveStatusDown, 6⟩ (by decide)).2.1⟩

end healthcheck
